import Mathlib

/-!
Shallow embedding of `image-processor/main.py`, the interactive VLM CLI loop
(fetch an image from a URL, run a vision-language model on it, write the
generated markdown to a file, clean the scratch directory).

Modelling conventions:
* Python strings are Lean `String`s; file contents are `String`s (image file
  contents are the abstract `PILImage` value that was saved there).
* A directory is an association list `List (String × α)` from file path to
  content; `open(path, "w")` is `setFile` (overwrite-or-create), `os.remove`
  is a filter, `os.listdir` is the list of keys.
* External effects (`requests.get`, `PIL.Image.open`, `PIL.Image.convert`,
  `model.generate`, the clock, `input()`) are oracles passed in as explicit
  function/value parameters; their documented library contracts appear as
  hypotheses of the theorems, never baked into the program text.
* Exceptions are `Except`/`Option` values; a Python `try/except` block is the
  corresponding `match`.  `KeyboardInterrupt` is kept distinct from
  `Exception` because the loop handles them differently.
-/

/-- Configuration constant `CACHE_DIR = "./cache"` from the source. -/
def CACHE_DIR : String := "./cache"

/-- Configuration constant `OUTPUT_DIR = "./output"` from the source. -/
def OUTPUT_DIR : String := "./output"

/-- `os.path.join(dir, name)` for the forward-slash paths used by the script. -/
def pathJoin (dir name : String) : String := dir ++ "/" ++ name

/-- A decoded PIL image: its color `mode` string (`"RGB"`, `"RGBA"`, `"L"`, ...)
plus an abstract pixel payload.  No claim depends on pixel values, so the
payload is an opaque `Nat` tag. -/
structure PILImage where
  mode : String
  content : Nat
deriving DecidableEq, Repr

/-- Number of channels of a PIL color mode, from the PIL documentation
(used only to state what `3-channel` means for a mode string). -/
def modeChannels : String → Nat
  | "1" => 1
  | "L" => 1
  | "P" => 1
  | "I" => 1
  | "F" => 1
  | "LA" => 2
  | "RGB" => 3
  | "YCbCr" => 3
  | "HSV" => 3
  | "LAB" => 3
  | "RGBA" => 4
  | "CMYK" => 4
  | _ => 0

/-- Outcome of `requests.get(url, timeout=10)`: either the call raised
(connection error, timeout, ...) or it returned a response with a status
code and a body. -/
inductive HttpResult where
  | err (msg : String)
  | resp (status : Nat) (body : String)
deriving DecidableEq, Repr

/-- `response.raise_for_status()` raises `HTTPError` exactly for client-error
(4xx) and server-error (5xx) status codes — the documented behavior of the
`requests` library.  It does not raise for any other status. -/
def raisesForStatus (status : Nat) : Bool := 400 ≤ status && status < 600

/-- The external collaborators used by `download_image`: the HTTP client,
the image decoder `PIL.Image.open(BytesIO(body))` (`none` when the body does
not decode as an image, i.e. `Image.open` raises), and the color-mode
converter `image.convert(mode)`. -/
structure FetchEnv where
  httpGet : String → HttpResult
  decodeImg : String → Option PILImage
  convert : PILImage → String → PILImage

/-- Write `v` at key `k` in an association-list directory, replacing the
existing entry if one is present (the semantics of `open(k, "w")`). -/
def setFile {α : Type} : List (String × α) → String → α → List (String × α)
  | [], k, v => [(k, v)]
  | (k₁, v₁) :: rest, k, v =>
      if k₁ = k then (k, v) :: rest else (k₁, v₁) :: setFile rest k v

/-- Read the content at key `k` of an association-list directory. -/
def getFile {α : Type} : List (String × α) → String → Option α
  | [], _ => none
  | (k₁, v₁) :: rest, k => if k₁ = k then some v₁ else getFile rest k

/-- The scratch (cache) directory: file path to saved image. -/
abbrev CacheDir : Type := List (String × PILImage)

/-- Translation of `download_image(url)` (main.py lines 177–198).

```
try:
    response = requests.get(url, timeout=10)
    response.raise_for_status()
    timestamp = datetime.now().strftime("%Y%m%d_%H%M%S")
    filename = f"image_{timestamp}.jpg"
    filepath = os.path.join(CACHE_DIR, filename)
    image = Image.open(BytesIO(response.content))
    if image.mode != 'RGB':
        image = image.convert('RGB')
    image.save(filepath)
    return filepath, image
except Exception as e:
    print(f"Error downloading image: ...")
    return None, None
```

`ts` is the oracle for `datetime.now().strftime(...)`.  The result is the
returned pair, the cache directory after the call, and the list of messages
printed by the call. -/
def download_image (env : FetchEnv) (ts : String) (url : String) (cache : CacheDir) :
    (Option String × Option PILImage) × CacheDir × List String :=
  match env.httpGet url with
  | .err e => ((none, none), cache, ["Error downloading image: " ++ e])
  | .resp status body =>
    if raisesForStatus status then
      ((none, none), cache,
        ["Error downloading image: HTTP status error " ++ toString status])
    else
      let filename := "image_" ++ ts ++ ".jpg"
      let filepath := pathJoin CACHE_DIR filename
      match env.decodeImg body with
      | none => ((none, none), cache, ["Error downloading image: cannot identify image file"])
      | some image =>
        let image := if image.mode ≠ "RGB" then env.convert image "RGB" else image
        ((some filepath, some image), setFile cache filepath image, [])

/-- The document text produced by `save_output` (main.py lines 257–260): three
`f.write` calls on a file opened in `"w"` mode.  `iso` is the oracle for
`datetime.now().isoformat()`. -/
def outputDoc (content url iso : String) : String :=
  ("<!-- Source: " ++ url ++ " -->\n") ++ ("<!-- Date: " ++ iso ++ " -->\n\n") ++ content

/-- Translation of `save_output(content, original_url)` (main.py lines 251–262):
builds the timestamp-derived filename, writes the provenance header and the
content into that file (`"w"` mode), and returns the path.  `ts` is the oracle
for `datetime.now().strftime(...)` and `iso` for `datetime.now().isoformat()`.
The result is the returned path and the output directory after the write. -/
def save_output (content url ts iso : String) (outs : List (String × String)) :
    String × List (String × String) :=
  let filename := "output_" ++ ts ++ ".md"
  let filepath := pathJoin OUTPUT_DIR filename
  (filepath, setFile outs filepath (outputDoc content url iso))

/-- Bound passed by `process_image` to `model.generate`:
`max_new_tokens=2048` (main.py line 238). -/
def MAX_NEW_TOKENS : Nat := 2048

/-- The tokenizer side of `AutoProcessor`: the string each token id decodes to,
and whether the id is a special/control token. -/
structure Tokenizer where
  tokStr : Nat → String
  isSpecial : Nat → Bool

/-- `processor.batch_decode(idss, skip_special_tokens=skipSpecial, ...)`:
decode each id sequence to a string, dropping special tokens when asked —
the documented contract of the Hugging Face tokenizer. -/
def batch_decode (tk : Tokenizer) (skipSpecial : Bool) (idss : List (List Nat)) :
    List String :=
  idss.map (fun ids =>
    String.join (((if skipSpecial then ids.filter (fun i => !tk.isSpecial i) else ids).map
      tk.tokStr)))

/-- Translation of the token-level tail of `process_image` (main.py lines
236–249), starting from the encoded prompt `inputIds` (the batch
`inputs.input_ids` produced by the processor; the script always builds a batch
of one).  `generate` is the opaque `model.generate`, taking the batch and the
`max_new_tokens` bound and returning one generated id sequence per batch
element:

```
generated_ids = model.generate(**inputs, max_new_tokens=2048)
generated_ids_trimmed = [out_ids[len(in_ids):]
                         for in_ids, out_ids in zip(inputs.input_ids, generated_ids)]
output_text = processor.batch_decode(generated_ids_trimmed,
                                     skip_special_tokens=True, ...)
return output_text[0]
```

`output_text[0]` on an empty batch would raise `IndexError`, hence `Option`. -/
def process_image (generate : List (List Nat) → Nat → List (List Nat))
    (tk : Tokenizer) (inputIds : List (List Nat)) : Option String :=
  let generatedIds := generate inputIds MAX_NEW_TOKENS
  let generatedIdsTrimmed :=
    (inputIds.zip generatedIds).map (fun p => p.2.drop p.1.length)
  let outputText := batch_decode tk true generatedIdsTrimmed
  outputText.head?

/-- What the startup environment looks like to `check_cuda_and_restart`:
whether `torch.cuda.is_available()` and whether the venv interpreter
`<script_dir>/.venv/Scripts/python.exe` exists on disk. -/
structure StartupEnv where
  cudaAvailable : Bool
  venvExists : Bool
deriving DecidableEq, Repr

/-- How `check_cuda_and_restart` ends: fall through into `main`, relaunch the
script under the venv interpreter and then exit with the given status, or just
exit with the given status. -/
inductive StartupResult where
  | proceed
  | relaunchThenExit (code : Nat)
  | exitWith (code : Nat)
deriving DecidableEq, Repr

/-- Translation of `check_cuda_and_restart()` (main.py lines 23–46): if CUDA is
unavailable, either relaunch under the project venv Python (when it exists) and
exit 0, or print the activation instructions and exit 1.  Returns the outcome
and the printed messages. -/
def check_cuda_and_restart (e : StartupEnv) : StartupResult × List String :=
  if e.cudaAvailable then
    (.proceed, [])
  else if e.venvExists then
    (.relaunchThenExit 0,
      ["ERROR: CUDA is not available in the current Python environment.",
       "Restarting with CUDA-enabled Python from: .venv/Scripts/python.exe"])
  else
    (.exitWith 1,
      ["ERROR: CUDA is not available in the current Python environment.",
       "ERROR: Virtual environment not found at: .venv/Scripts/python.exe",
       "Please run:", "  cd image-processor", "  .venv Scripts Activate.ps1",
       "  python main.py"])

/-- ASCII lower-casing of one character, as Python `str.lower()` acts on the
ASCII range (the only range the quit-keyword comparison can match). -/
def asciiLower (c : Char) : Char :=
  if 'A' ≤ c && c ≤ 'Z' then Char.ofNat (c.toNat + 32) else c

/-- Python `str.lower()`. -/
def pyLower (s : String) : String := ⟨s.data.map asciiLower⟩

/-- Python `str.strip()`: drop leading and trailing whitespace. -/
def pyStrip (s : String) : String :=
  ⟨((s.data.dropWhile Char.isWhitespace).reverse.dropWhile Char.isWhitespace).reverse⟩

/-- The quit keywords checked by the loop: `user_input.lower() in ['q', 'quit', 'exit']`. -/
def QUIT_WORDS : List String := ["q", "quit", "exit"]

/-- Observable state of one session: the scratch directory, the output
directory, and the console transcript. -/
structure World where
  cache : List (String × PILImage)
  outputs : List (String × String)
  console : List String
deriving DecidableEq, Repr

/-- Append one printed line to the console. -/
def World.say (w : World) (m : String) : World :=
  { w with console := w.console ++ [m] }

/-- The per-iteration oracles of the session loop: the result of `input()`
(`.error ()` meaning `KeyboardInterrupt`), the fetch collaborators, the
outcome of the opaque inference call `process_image(model, processor, path)`
(`.error msg` meaning it raised), a possible fault raised while writing the
output file, and the three clock readings used in the iteration. -/
structure IterEnv where
  readLine : Except Unit String
  fetch : FetchEnv
  infer : Except String String
  writeFault : Option String
  tsFetch : String
  tsSave : String
  iso : String

/-- Whether the loop body ended with `break` (process ends) or fell through to
the next iteration of `while True`. -/
inductive IterOutcome where
  | continueLoop
  | exitLoop
deriving DecidableEq, Repr

/-- Translation of the cleanup block (main.py lines 310–327): remove the
just-downloaded file if present, then list and remove every remaining file in
the cache directory, and report a count.  Failures of single removals are
swallowed (`except Exception: pass`); the model filesystem never fails them. -/
def cleanupCache (imagePath : String) (w : World) : World :=
  let cacheAfterRemove := w.cache.filter (fun p => p.1 ≠ imagePath)
  let cacheFiles := cacheAfterRemove.map (fun p => p.1)
  let msg :=
    if cacheFiles.length ≠ 0 then
      "Cache cleared: " ++ toString (cacheFiles.length + 1) ++ " file(s) removed"
    else
      "Cache cleared: " ++ imagePath
  { (World.say w msg) with cache := [] }

/-- Translation of one iteration of the `while True` loop in `main()`
(main.py lines 277–333).  The `try` block reads a line, strips it, handles
quit keywords and empty input, downloads, infers, saves, prints the preview,
and cleans up; `except KeyboardInterrupt` breaks out of the loop;
`except Exception as e` prints the error and falls through to the next
iteration.  The inference and output-write faults enter through `env.infer`
and `env.writeFault`, and propagate to the outer handler exactly when the
control flow of the source reaches the corresponding call. -/
def mainIter (env : IterEnv) (w : World) : IterOutcome × World :=
  match env.readLine with
  | .error _ => (.exitLoop, World.say w "Exiting...")
  | .ok raw =>
    let userInput := pyStrip raw
    if QUIT_WORDS.contains (pyLower userInput) then
      (.exitLoop, World.say w "Exiting...")
    else if userInput = "" then
      (.continueLoop, w)
    else
      let w := World.say w "Downloading image..."
      let dl := download_image env.fetch env.tsFetch userInput w.cache
      let w := { w with cache := dl.2.1, console := w.console ++ dl.2.2 }
      match dl.1.1 with
        | none => (.continueLoop, w)
        | some imagePath =>
          let w := World.say w "Processing image (this may take a few seconds)..."
          match env.infer with
          | .error e => (.continueLoop, World.say w ("An unexpected error occurred: " ++ e))
          | .ok markdownContent =>
            match env.writeFault with
            | some e => (.continueLoop, World.say w ("An unexpected error occurred: " ++ e))
            | none =>
              let saved := save_output markdownContent userInput env.tsSave env.iso w.outputs
              let w := { w with outputs := saved.2 }
              let w := World.say w ("Saved to: " ++ saved.1)
              (.continueLoop, cleanupCache imagePath w)

/-- Take characters up to the first newline: the first line and, when a
newline is present, the remainder after it. -/
def splitAtNewline : List Char → List Char × Option (List Char)
  | [] => ([], none)
  | c :: cs =>
    if c = '\n' then ([], some cs)
    else
      let r := splitAtNewline cs
      (c :: r.1, r.2)

/-- ASCII digit test. -/
def isAsciiDigit (c : Char) : Bool := '0' ≤ c && c ≤ '9'

/-- Optional fractional-seconds suffix of `datetime.isoformat()`:
either nothing or a dot followed by at least one digit. -/
def isoFractionOk : List Char → Bool
  | [] => true
  | c :: fs => c == '.' && !fs.isEmpty && fs.all isAsciiDigit

/-- Format check for the strings `datetime.now().isoformat()` produces:
`YYYY-MM-DDTHH:MM:SS` optionally followed by `.ffffff`. -/
def isISO8601chars : List Char → Bool
  | y1 :: y2 :: y3 :: y4 :: sp1 :: m1 :: m2 :: sp2 :: d1 :: d2 :: t ::
      h1 :: h2 :: c1 :: n1 :: n2 :: c2 :: s1 :: s2 :: rest =>
    [y1, y2, y3, y4, m1, m2, d1, d2, h1, h2, n1, n2, s1, s2].all isAsciiDigit &&
      sp1 == '-' && sp2 == '-' && t == 'T' && c1 == ':' && c2 == ':' &&
      isoFractionOk rest
  | _ => false

/-- A string is a well-formed ISO-8601 `datetime.isoformat()` timestamp. -/
def isISO8601 (s : String) : Bool := isISO8601chars s.data

theorem splitAtNewline_append (l rest : List Char) (hl : ∀ c ∈ l, c ≠ '\n') :
    splitAtNewline (l ++ '\n' :: rest) = (l, some rest) := by
  induction l with
  | nil => simp [splitAtNewline]
  | cons c cs ih =>
    have hc : c ≠ '\n' := hl c (by simp)
    simp [splitAtNewline, hc, ih (fun d hd => hl d (by simp [hd]))]

theorem getFile_setFile_self {α : Type} (fs : List (String × α)) (k : String) (v : α) :
    getFile (setFile fs k v) k = some v := by
  induction fs with
  | nil => simp [setFile, getFile]
  | cons p rest ih =>
    obtain ⟨k₁, v₁⟩ := p
    by_cases h : k₁ = k <;> simp [setFile, getFile, h, ih]

theorem getFile_setFile_ne {α : Type} (fs : List (String × α)) (k k₂ : String) (v : α)
    (h : k₂ ≠ k) : getFile (setFile fs k v) k₂ = getFile fs k₂ := by
  have h₀ : ¬k = k₂ := fun he => h he.symm
  induction fs with
  | nil => simp [setFile, getFile, h₀]
  | cons p rest ih =>
    obtain ⟨k₁, v₁⟩ := p
    by_cases h₁ : k₁ = k
    · subst h₁
      simp [setFile, getFile, h₀]
    · by_cases h₂ : k₁ = k₂ <;> simp [setFile, getFile, h, h₁, h₂, ih]

theorem setFile_length_fresh {α : Type} (fs : List (String × α)) (k : String) (v : α)
    (h : getFile fs k = none) : (setFile fs k v).length = fs.length + 1 := by
  induction fs with
  | nil => simp [setFile]
  | cons p rest ih =>
    obtain ⟨k₁, v₁⟩ := p
    by_cases h₁ : k₁ = k
    · simp [getFile, h₁] at h
    · simp [getFile, h₁] at h
      simp [setFile, h₁, ih h]


theorem pathJoin_ne_empty (dir name : String) : pathJoin dir name ≠ "" := by
  intro h
  have h₁ := congrArg List.length (congrArg String.data h)
  simp [pathJoin, String.data_append] at h₁

/-- Concrete fetch collaborators for the evaluation theorems: every URL yields
status 200 with body `PNGBYTES`, which decodes to a transparent 4-channel RGBA
image; `convert` retags the mode and keeps the payload, as PIL does. -/
def sampleFetch : FetchEnv :=
  { httpGet := fun _ => .resp 200 "PNGBYTES"
    decodeImg := fun b => if b = "PNGBYTES" then some ⟨"RGBA", 7⟩ else none
    convert := fun i m => ⟨m, i.content⟩ }

/-- Like `sampleFetch` but the server answers `304 Not Modified` (a non-2xx
status that `raise_for_status` does not treat as an error) with an image body. -/
def sampleFetch304 : FetchEnv :=
  { sampleFetch with httpGet := fun _ => .resp 304 "PNGBYTES" }

/-- Concrete loop-iteration oracles for the evaluation theorems: the operator
enters a URL, the fetch succeeds, inference succeeds, the write succeeds. -/
def sampleIterEnv : IterEnv :=
  { readLine := .ok "http://example.com/shot.png"
    fetch := sampleFetch
    infer := .ok "### Overview markdown"
    writeFault := none
    tsFetch := "20260101_000000"
    tsSave := "20260101_000001"
    iso := "2026-01-01T00:00:01.000001" }

/-- A session state with empty scratch directory, empty output directory and
empty console. -/
def emptyWorld : World := ⟨[], [], []⟩

/-- C10: for every input URL, `download_image` returns either both components
present (a file path and a decoded image, on success) or both components empty
(on failure), never a mixed pair; the success path is a non-empty string, so
the caller's emptiness test `if not image_path` is a complete success/failure
discriminator. -/
theorem download_image_both_or_neither (env : FetchEnv) (ts url : String) (cache : CacheDir) :
    (download_image env ts url cache).1 = (none, none) ∨
      ∃ p i, (download_image env ts url cache).1 = (some p, some i) ∧ p ≠ "" := by
  unfold download_image
  cases env.httpGet url with
  | err e => left; rfl
  | resp status body =>
    by_cases hs : raisesForStatus status
    · left; simp [hs]
    · cases hdec : env.decodeImg body with
      | none => left; simp [hs, hdec]
      | some img =>
        right
        refine ⟨pathJoin CACHE_DIR ("image_" ++ ts ++ ".jpg"),
          if img.mode ≠ "RGB" then env.convert img "RGB" else img, ?_,
          pathJoin_ne_empty _ _⟩
        simp [hs, hdec]

/-- Evaluation of `download_image_both_or_neither` on the concrete sample
fetch environment. -/
theorem download_image_both_or_neither_witness :
    (download_image sampleFetch "20260101_000000" "http://example.com/shot.png" []).1 =
        (none, none) ∨
      ∃ p i, (download_image sampleFetch "20260101_000000"
          "http://example.com/shot.png" []).1 = (some p, some i) ∧ p ≠ "" :=
  download_image_both_or_neither sampleFetch "20260101_000000"
    "http://example.com/shot.png" []

/-- C5: for every URL whose response body decodes as an image (and whose status
does not make `raise_for_status` raise), `download_image` returns a path and an
image whose color mode is 3-channel `RGB`, whatever the source mode was
(including a transparent `RGBA` PNG): a non-`RGB` mode is converted before
saving.  `hconv` is the PIL contract that `image.convert(m)` yields mode `m`. -/
theorem download_image_rgb (env : FetchEnv) (ts url : String) (cache : CacheDir)
    (status : Nat) (body : String) (img : PILImage)
    (hresp : env.httpGet url = .resp status body)
    (hstatus : raisesForStatus status = false)
    (hdec : env.decodeImg body = some img)
    (hconv : ∀ i m, (env.convert i m).mode = m) :
    ∃ p i, (download_image env ts url cache).1 = (some p, some i) ∧
      i.mode = "RGB" ∧ modeChannels i.mode = 3 := by
  unfold download_image
  rw [hresp]
  have hmode : (if img.mode ≠ "RGB" then env.convert img "RGB" else img).mode = "RGB" := by
    by_cases hm : img.mode = "RGB" <;> simp [hm, hconv]
  refine ⟨pathJoin CACHE_DIR ("image_" ++ ts ++ ".jpg"),
    if img.mode ≠ "RGB" then env.convert img "RGB" else img, ?_, hmode, ?_⟩
  · simp [hstatus, hdec]
  · rw [hmode]; decide

/-- Evaluation of `download_image_rgb` on a transparent PNG: the sample body
decodes to a 4-channel `RGBA` image and the returned image is `RGB`. -/
theorem download_image_rgb_witness :
    (sampleFetch.decodeImg "PNGBYTES" = some ⟨"RGBA", 7⟩ ∧
      modeChannels (PILImage.mode ⟨"RGBA", 7⟩) = 4) ∧
    ∃ p i, (download_image sampleFetch "20260101_000000"
        "http://example.com/shot.png" []).1 = (some p, some i) ∧
      i.mode = "RGB" ∧ modeChannels i.mode = 3 :=
  ⟨by decide,
    download_image_rgb sampleFetch "20260101_000000" "http://example.com/shot.png" []
      200 "PNGBYTES" ⟨"RGBA", 7⟩ (by decide) (by decide) (by decide)
      (fun i m => rfl)⟩

/-- C3 counterexample: a non-2xx HTTP status does not by itself make
`download_image` fail.  `raise_for_status` raises only for 4xx/5xx statuses,
so a `304 Not Modified` answer carrying a body that decodes as an image is
accepted: the call returns a path and an image and writes a file into the
scratch directory, contradicting the claim that every non-2xx status yields an
empty result with the scratch directory unchanged. -/
theorem download_image_non2xx_not_failure :
    (304 < 200 ∨ 299 < 304) ∧
    download_image sampleFetch304 "20260101_000000" "http://example.com/shot.png" [] =
      ((some "./cache/image_20260101_000000.jpg", some ⟨"RGB", 7⟩),
        [("./cache/image_20260101_000000.jpg", ⟨"RGB", 7⟩)], []) := by decide

/-- C3 (amended): `download_image` reports the error, returns the empty pair
and leaves the scratch directory unchanged exactly on the failures the code
can see — the HTTP call raising, a 4xx/5xx status (what `raise_for_status`
raises on; other non-2xx statuses are not treated as errors), or a body that
does not decode as an image; on success it performs exactly one file write,
into the scratch directory, adding one file when the name is fresh. -/
theorem download_image_failure_contract (env : FetchEnv) (ts url : String) (cache : CacheDir) :
    (∀ e, env.httpGet url = .err e →
      (download_image env ts url cache).1 = (none, none) ∧
      (download_image env ts url cache).2.1 = cache ∧
      (download_image env ts url cache).2.2.length = 1) ∧
    (∀ status body, env.httpGet url = .resp status body → raisesForStatus status = true →
      (download_image env ts url cache).1 = (none, none) ∧
      (download_image env ts url cache).2.1 = cache ∧
      (download_image env ts url cache).2.2.length = 1) ∧
    (∀ status body, env.httpGet url = .resp status body → raisesForStatus status = false →
      env.decodeImg body = none →
      (download_image env ts url cache).1 = (none, none) ∧
      (download_image env ts url cache).2.1 = cache ∧
      (download_image env ts url cache).2.2.length = 1) ∧
    (∀ status body img, env.httpGet url = .resp status body → raisesForStatus status = false →
      env.decodeImg body = some img →
      ∃ p i, (download_image env ts url cache).1 = (some p, some i) ∧
        (download_image env ts url cache).2.1 = setFile cache p i ∧
        (getFile cache p = none →
          (download_image env ts url cache).2.1.length = cache.length + 1)) := by
  refine ⟨?_, ?_, ?_, ?_⟩
  · intro e he
    unfold download_image
    rw [he]
    simp
  · intro status body hr hs
    unfold download_image
    rw [hr]
    simp [hs]
  · intro status body hr hs hd
    unfold download_image
    rw [hr]
    simp [hs, hd]
  · intro status body img hr hs hd
    unfold download_image
    rw [hr]
    simp only [hs, Bool.false_eq_true, if_false, hd]
    refine ⟨pathJoin CACHE_DIR ("image_" ++ ts ++ ".jpg"),
      if img.mode ≠ "RGB" then env.convert img "RGB" else img, by simp, by simp, ?_⟩
    intro hfresh
    simpa using setFile_length_fresh cache _ _ hfresh

/-- Evaluation of `download_image_failure_contract` on a concrete environment
where the HTTP call raises a connection error: nothing is written. -/
theorem download_image_failure_contract_witness :
    ({ sampleFetch with httpGet := fun _ => .err "connection timed out" } :
        FetchEnv).httpGet "http://example.com/shot.png" = .err "connection timed out" ∧
    (download_image { sampleFetch with httpGet := fun _ => .err "connection timed out" }
        "20260101_000000" "http://example.com/shot.png" []).1 = (none, none) ∧
    (download_image { sampleFetch with httpGet := fun _ => .err "connection timed out" }
        "20260101_000000" "http://example.com/shot.png" []).2.1 = [] ∧
    (download_image { sampleFetch with httpGet := fun _ => .err "connection timed out" }
        "20260101_000000" "http://example.com/shot.png" []).2.2.length = 1 :=
  ⟨by decide,
    (download_image_failure_contract
      { sampleFetch with httpGet := fun _ => .err "connection timed out" }
      "20260101_000000" "http://example.com/shot.png" []).1
      "connection timed out" (by decide)⟩

/-- C7 counterexample: `save_output` opens the timestamp-named file in `"w"`
mode, so when a file with the same second-resolution name already exists its
previous content is replaced — silently lost.  Here the output directory
already holds `output_20260101_000000.md` with content `old data`; after the
call the same path holds the new document and `old data` is gone. -/
theorem save_output_overwrites_existing :
    getFile [("./output/output_20260101_000000.md", "old data")]
        "./output/output_20260101_000000.md" = some "old data" ∧
    (save_output "new text" "http://example.com/shot.png" "20260101_000000"
        "2026-01-01T00:00:00" [("./output/output_20260101_000000.md", "old data")]).2 =
      [("./output/output_20260101_000000.md",
        outputDoc "new text" "http://example.com/shot.png" "2026-01-01T00:00:00")] ∧
    outputDoc "new text" "http://example.com/shot.png" "2026-01-01T00:00:00" ≠
      "old data" := by decide

/-- C7 (amended): `save_output` writes with `open(filepath, "w")` semantics —
the produced document is stored at the timestamp-derived path, replacing any
existing file of that name (its data is lost) while every other file in the
output directory is left untouched.  No collision check exists; the design
relies on the interactive loop producing at most one output per second. -/
theorem save_output_write_semantics (content url ts iso : String)
    (outs : List (String × String)) :
    getFile (save_output content url ts iso outs).2 (save_output content url ts iso outs).1 =
      some (outputDoc content url iso) ∧
    ∀ k, k ≠ (save_output content url ts iso outs).1 →
      getFile (save_output content url ts iso outs).2 k = getFile outs k := by
  constructor
  · simp only [save_output]
    exact getFile_setFile_self _ _ _
  · intro k hk
    simp only [save_output] at hk ⊢
    exact getFile_setFile_ne _ _ _ _ hk

/-- Evaluation of `save_output_write_semantics` at a concrete collision: the
post-state maps the colliding path to the freshly produced document. -/
theorem save_output_write_semantics_witness :
    getFile (save_output "new text" "http://example.com/shot.png" "20260101_000000"
          "2026-01-01T00:00:00" [("./output/output_20260101_000000.md", "old data")]).2
        (save_output "new text" "http://example.com/shot.png" "20260101_000000"
          "2026-01-01T00:00:00" [("./output/output_20260101_000000.md", "old data")]).1 =
      some (outputDoc "new text" "http://example.com/shot.png" "2026-01-01T00:00:00") ∧
    ∀ k, k ≠ (save_output "new text" "http://example.com/shot.png" "20260101_000000"
          "2026-01-01T00:00:00" [("./output/output_20260101_000000.md", "old data")]).1 →
      getFile (save_output "new text" "http://example.com/shot.png" "20260101_000000"
          "2026-01-01T00:00:00" [("./output/output_20260101_000000.md", "old data")]).2 k =
        getFile [("./output/output_20260101_000000.md", "old data")] k :=
  save_output_write_semantics "new text" "http://example.com/shot.png" "20260101_000000"
    "2026-01-01T00:00:00" [("./output/output_20260101_000000.md", "old data")]

/-- C4: the document `save_output` produces decomposes into a first line that
is a provenance comment embedding the source URL verbatim, a second line that
is a provenance comment embedding the (valid ISO-8601) timestamp, a blank
line, and a remainder equal to the generated text character-for-character.
The single-line hypotheses hold for the real oracles: the URL comes from one
`input()` line and `datetime.isoformat()` output contains no newline. -/
theorem save_output_provenance (content url iso : String)
    (hu : ∀ c ∈ url.data, c ≠ '\n') (hi : ∀ c ∈ iso.data, c ≠ '\n')
    (hiso : isISO8601 iso = true) :
    ∃ rest₁ rest₂,
      splitAtNewline (outputDoc content url iso).data =
        (("<!-- Source: " ++ url ++ " -->").data, some rest₁) ∧
      splitAtNewline rest₁ = (("<!-- Date: " ++ iso ++ " -->").data, some rest₂) ∧
      splitAtNewline rest₂ = ([], some content.data) ∧
      isISO8601 iso = true := by
  have hs1 : ∀ c ∈ ("<!-- Source: " : String).data, c ≠ '\n' := by decide
  have hs2 : ∀ c ∈ (" -->" : String).data, c ≠ '\n' := by decide
  have hs3 : ∀ c ∈ ("<!-- Date: " : String).data, c ≠ '\n' := by decide
  have hL1 : ∀ c ∈ ("<!-- Source: " ++ url ++ " -->").data, c ≠ '\n' := by
    intro c hc
    rw [String.data_append, String.data_append] at hc
    rcases List.mem_append.1 hc with hc' | hc'
    · rcases List.mem_append.1 hc' with hc'' | hc''
      · exact hs1 c hc''
      · exact hu c hc''
    · exact hs2 c hc'
  have hL2 : ∀ c ∈ ("<!-- Date: " ++ iso ++ " -->").data, c ≠ '\n' := by
    intro c hc
    rw [String.data_append, String.data_append] at hc
    rcases List.mem_append.1 hc with hc' | hc'
    · rcases List.mem_append.1 hc' with hc'' | hc''
      · exact hs3 c hc''
      · exact hi c hc''
    · exact hs2 c hc'
  have hdoc : (outputDoc content url iso).data =
      ("<!-- Source: " ++ url ++ " -->").data ++ '\n' ::
        (("<!-- Date: " ++ iso ++ " -->").data ++ '\n' :: '\n' :: content.data) := by
    have e1 : (" -->\n" : String).data = (" -->" : String).data ++ ['\n'] := by decide
    have e2 : (" -->\n\n" : String).data = (" -->" : String).data ++ ['\n', '\n'] := by decide
    simp only [outputDoc, String.data_append, e1, e2, List.append_assoc,
      List.cons_append, List.nil_append]
  refine ⟨("<!-- Date: " ++ iso ++ " -->").data ++ '\n' :: '\n' :: content.data,
    '\n' :: content.data, ?_, ?_, ?_, hiso⟩
  · rw [hdoc]
    exact splitAtNewline_append _ _ hL1
  · exact splitAtNewline_append _ _ hL2
  · simp [splitAtNewline]

/-- Evaluation of `save_output_provenance` on a concrete document. -/
theorem save_output_provenance_witness :
    (∀ c ∈ ("http://example.com/shot.png" : String).data, c ≠ '\n') ∧
    (∀ c ∈ ("2026-01-01T00:00:01.000001" : String).data, c ≠ '\n') ∧
    isISO8601 "2026-01-01T00:00:01.000001" = true ∧
    ∃ rest₁ rest₂,
      splitAtNewline (outputDoc "### Overview markdown" "http://example.com/shot.png"
          "2026-01-01T00:00:01.000001").data =
        (("<!-- Source: " ++ "http://example.com/shot.png" ++ " -->").data, some rest₁) ∧
      splitAtNewline rest₁ =
        (("<!-- Date: " ++ "2026-01-01T00:00:01.000001" ++ " -->").data, some rest₂) ∧
      splitAtNewline rest₂ = ([], some ("### Overview markdown" : String).data) ∧
      isISO8601 "2026-01-01T00:00:01.000001" = true :=
  ⟨by decide, by decide, by decide,
    save_output_provenance "### Overview markdown" "http://example.com/shot.png"
      "2026-01-01T00:00:01.000001" (by decide) (by decide) (by decide)⟩

/-- C8: `process_image` requests generation bounded by `MAX_NEW_TOKENS = 2048`
and returns exactly the decoded continuation: the first `len(input_ids)`
tokens of the generated sequence (the echoed prompt) are dropped before
decoding, and special/control tokens are removed by the
`skip_special_tokens=True` decode.  `hgen` is the generate contract that the
returned sequence extends the prompt; the last conjunct shows the result
depends on `generate` only through its value at the 2048 bound. -/
theorem process_image_returns_continuation
    (generate : List (List Nat) → Nat → List (List Nat)) (tk : Tokenizer)
    (inIds newIds : List Nat)
    (hgen : generate [inIds] MAX_NEW_TOKENS = [inIds ++ newIds]) :
    process_image generate tk [inIds] =
      some (String.join (((newIds.filter (fun i => !tk.isSpecial i)).map tk.tokStr))) ∧
    MAX_NEW_TOKENS = 2048 ∧
    (∀ g₂ : List (List Nat) → Nat → List (List Nat),
      g₂ [inIds] MAX_NEW_TOKENS = generate [inIds] MAX_NEW_TOKENS →
      process_image g₂ tk [inIds] = process_image generate tk [inIds]) := by
  refine ⟨?_, rfl, ?_⟩
  · unfold process_image
    rw [hgen]
    simp [batch_decode, List.drop_left]
  · intro g₂ hg
    unfold process_image
    rw [hg]

/-- A concrete tokenizer for the evaluation theorems: ids 10 and 11 decode to
text, id 99 is a special/control token. -/
def sampleTok : Tokenizer :=
  { tokStr := fun i => if i = 10 then "Hello " else if i = 11 then "world" else "<pad>"
    isSpecial := fun i => i = 99 }

/-- Evaluation of `process_image_returns_continuation`: prompt `[1, 2, 3]`,
continuation `[10, 99, 11]` with `99` special; the echoed prompt and the
special token are absent from the returned text. -/
theorem process_image_returns_continuation_witness :
    (fun (b : List (List Nat)) (_ : Nat) => b.map (fun ids => ids ++ [10, 99, 11]))
        [[1, 2, 3]] MAX_NEW_TOKENS = [[1, 2, 3] ++ [10, 99, 11]] ∧
    process_image (fun b _ => b.map (fun ids => ids ++ [10, 99, 11]))
        sampleTok [[1, 2, 3]] =
      some (String.join ((([10, 99, 11].filter
        (fun i => !sampleTok.isSpecial i)).map sampleTok.tokStr))) :=
  ⟨by decide,
    (process_image_returns_continuation (fun b _ => b.map (fun ids => ids ++ [10, 99, 11]))
      sampleTok [1, 2, 3] [10, 99, 11] (by decide)).1⟩

/-- C9: when the startup GPU capability check fails (`torch.cuda.is_available()`
is false) and the project venv interpreter does not exist, the process prints
operator instructions and exits with the non-zero status 1; when the venv
interpreter exists, the process relaunches itself under it (and then exits 0). -/
theorem startup_cuda_check (e : StartupEnv) (hcuda : e.cudaAvailable = false) :
    (e.venvExists = false →
      (∃ c, (check_cuda_and_restart e).1 = .exitWith c ∧ c ≠ 0) ∧
      "Please run:" ∈ (check_cuda_and_restart e).2) ∧
    (e.venvExists = true →
      (check_cuda_and_restart e).1 = .relaunchThenExit 0) := by
  constructor
  · intro hv
    refine ⟨⟨1, ?_, by decide⟩, ?_⟩ <;> simp [check_cuda_and_restart, hcuda, hv]
  · intro hv
    simp [check_cuda_and_restart, hcuda, hv]

/-- Evaluation of `startup_cuda_check` with CUDA unavailable and no venv. -/
theorem startup_cuda_check_witness :
    (StartupEnv.cudaAvailable ⟨false, false⟩ = false) ∧
    ((StartupEnv.venvExists ⟨false, false⟩ = false →
      (∃ c, (check_cuda_and_restart ⟨false, false⟩).1 = .exitWith c ∧ c ≠ 0) ∧
      "Please run:" ∈ (check_cuda_and_restart ⟨false, false⟩).2) ∧
    (StartupEnv.venvExists ⟨false, false⟩ = true →
      (check_cuda_and_restart ⟨false, false⟩).1 = .relaunchThenExit 0)) :=
  ⟨by decide, startup_cuda_check ⟨false, false⟩ (by decide)⟩

theorem download_image_success_parts (env : FetchEnv) (ts url : String) (cache : CacheDir)
    (p : String) (img : PILImage)
    (h : (download_image env ts url cache).1 = (some p, some img)) :
    (download_image env ts url cache).2.1 = setFile cache p img := by
  unfold download_image at h ⊢
  cases hr : env.httpGet url with
  | err e => rw [hr] at h; simp at h
  | resp status body =>
    rw [hr] at h
    by_cases hs : raisesForStatus status
    · simp [hs] at h
    · cases hdec : env.decodeImg body with
      | none => simp [hs, hdec] at h
      | some i =>
        simp only [hs, Bool.false_eq_true, if_false, hdec] at h ⊢
        simp only [Prod.mk.injEq, Option.some.injEq] at h
        rw [← h.1, ← h.2]

theorem mainIter_continue_of_no_quit (env : IterEnv) (w : World) (raw : String)
    (hr : env.readLine = .ok raw)
    (hq : QUIT_WORDS.contains (pyLower (pyStrip raw)) = false) :
    (mainIter env w).1 = .continueLoop := by
  unfold mainIter
  rw [hr]
  simp only [hq, Bool.false_eq_true, if_false]
  by_cases hne : pyStrip raw = ""
  · simp [hne]
  · simp only [if_neg hne]
    split
    · rfl
    · split
      · rfl
      · split <;> rfl

/-- C1 counterexample: an iteration that reaches the inference step and then
faults does NOT run the cleanup step.  The `process_image` exception jumps
straight to the loop's `except Exception` handler, skipping the cleanup block,
so the downloaded image is still in the scratch directory at the boundary
before the next prompt — one file, not zero. -/
theorem inference_fault_leaves_scratch_file :
    (mainIter { sampleIterEnv with infer := .error "CUDA error during generation" }
        emptyWorld).1 = .continueLoop ∧
    (mainIter { sampleIterEnv with infer := .error "CUDA error during generation" }
        emptyWorld).2.cache =
      [("./cache/image_20260101_000000.jpg", ⟨"RGB", 7⟩)] ∧
    "An unexpected error occurred: CUDA error during generation" ∈
      (mainIter { sampleIterEnv with infer := .error "CUDA error during generation" }
        emptyWorld).2.console := by decide

/-- C1 (amended): for an iteration that reaches the inference step, the
cleanup step runs only when inference (and the subsequent write) succeeds, and
then the scratch directory holds zero files at the iteration boundary; on an
internal inference fault the error is reported and the loop continues, but
cleanup is skipped, so the downloaded image is still present in the scratch
directory until a later successful iteration's sweep removes it. -/
theorem cleanup_only_after_successful_iteration (env : IterEnv) (w : World)
    (raw p : String) (img : PILImage)
    (hr : env.readLine = .ok raw)
    (hq : QUIT_WORDS.contains (pyLower (pyStrip raw)) = false)
    (hne : pyStrip raw ≠ "")
    (hdl : (download_image env.fetch env.tsFetch (pyStrip raw) w.cache).1 =
      (some p, some img)) :
    (∀ md, env.infer = .ok md → env.writeFault = none →
      (mainIter env w).2.cache = []) ∧
    (∀ e, env.infer = .error e →
      (mainIter env w).1 = .continueLoop ∧
      getFile (mainIter env w).2.cache p = some img ∧
      ("An unexpected error occurred: " ++ e) ∈ (mainIter env w).2.console) := by
  have hcache := download_image_success_parts env.fetch env.tsFetch (pyStrip raw)
    w.cache p img hdl
  have h1 : (download_image env.fetch env.tsFetch (pyStrip raw) w.cache).1.1 = some p := by
    rw [hdl]
  have hq' : pyLower (pyStrip raw) ∉ QUIT_WORDS := by simpa using hq
  constructor
  · intro md hinf hwf
    unfold mainIter
    rw [hr]
    simp [hq', hne, World.say, h1, hinf, hwf, cleanupCache]
  · intro e hinf
    unfold mainIter
    rw [hr]
    refine ⟨?_, ?_, ?_⟩ <;>
      simp [hq', hne, World.say, h1, hinf, hcache, getFile_setFile_self]

/-- Evaluation of `cleanup_only_after_successful_iteration` on the concrete
successful iteration: after it, the scratch directory is empty. -/
theorem cleanup_only_after_successful_iteration_witness :
    sampleIterEnv.readLine = .ok "http://example.com/shot.png" ∧
    QUIT_WORDS.contains (pyLower (pyStrip "http://example.com/shot.png")) = false ∧
    pyStrip "http://example.com/shot.png" ≠ "" ∧
    (download_image sampleIterEnv.fetch sampleIterEnv.tsFetch
        (pyStrip "http://example.com/shot.png") emptyWorld.cache).1 =
      (some "./cache/image_20260101_000000.jpg", some ⟨"RGB", 7⟩) ∧
    (mainIter sampleIterEnv emptyWorld).2.cache = [] :=
  ⟨rfl, by decide, by decide, by decide,
    (cleanup_only_after_successful_iteration sampleIterEnv emptyWorld
      "http://example.com/shot.png" "./cache/image_20260101_000000.jpg" ⟨"RGB", 7⟩
      rfl (by decide) (by decide) (by decide)).1 "### Overview markdown" rfl rfl⟩

/-- C2: the loop body ends the process exactly on operator-initiated exit —
`input()` interrupted by `KeyboardInterrupt`, or a quit keyword — and never
because of a fault inside the iteration; a fault in the writing stage (after
fetch and inference succeeded) is converted to a printed
`An unexpected error occurred` message and the loop continues to the next
prompt.  (A fetch-stage fault is caught one level deeper, inside
`download_image`, printing its own message — see
`download_image_failure_contract`; an inference-stage fault is covered by
`cleanup_only_after_successful_iteration`.) -/
theorem loop_faults_never_terminate (env : IterEnv) (w : World) :
    ((mainIter env w).1 = .exitLoop ↔
      env.readLine = .error () ∨
        ∃ raw, env.readLine = .ok raw ∧
          QUIT_WORDS.contains (pyLower (pyStrip raw)) = true) ∧
    (∀ raw p img md e, env.readLine = .ok raw →
      QUIT_WORDS.contains (pyLower (pyStrip raw)) = false → pyStrip raw ≠ "" →
      (download_image env.fetch env.tsFetch (pyStrip raw) w.cache).1 =
        (some p, some img) →
      env.infer = .ok md → env.writeFault = some e →
      (mainIter env w).1 = .continueLoop ∧
      ("An unexpected error occurred: " ++ e) ∈ (mainIter env w).2.console) := by
  constructor
  · constructor
    · intro hexit
      cases hread : env.readLine with
      | error u => cases u; exact Or.inl rfl
      | ok raw =>
        by_cases hq : QUIT_WORDS.contains (pyLower (pyStrip raw)) = true
        · exact Or.inr ⟨raw, rfl, hq⟩
        · have hcont := mainIter_continue_of_no_quit env w raw hread
            (by simpa using hq)
          rw [hcont] at hexit
          exact absurd hexit (by decide)
    · intro h
      rcases h with herr | ⟨raw, hok, hq⟩
      · unfold mainIter
        rw [herr]
      · have hq2 : pyLower (pyStrip raw) ∈ QUIT_WORDS := by simpa using hq
        unfold mainIter
        rw [hok]
        simp [hq2]
  · intro raw p img md e hr hq hne hdl hinf hwf
    have h1 : (download_image env.fetch env.tsFetch (pyStrip raw) w.cache).1.1 = some p := by
      rw [hdl]
    have hq' : pyLower (pyStrip raw) ∉ QUIT_WORDS := by simpa using hq
    constructor <;>
      · unfold mainIter
        rw [hr]
        simp [hq', hne, World.say, h1, hinf, hwf]

/-- Evaluation of `loop_faults_never_terminate` at a concrete environment
whose output write raises: the loop continues and the fault is reported. -/
theorem loop_faults_never_terminate_witness :
    ((mainIter { sampleIterEnv with writeFault := some "No space left on device" }
        emptyWorld).1 = .exitLoop ↔
      ({ sampleIterEnv with writeFault := some "No space left on device" } :
          IterEnv).readLine = .error () ∨
        ∃ raw, ({ sampleIterEnv with writeFault := some "No space left on device" } :
            IterEnv).readLine = .ok raw ∧
          QUIT_WORDS.contains (pyLower (pyStrip raw)) = true) ∧
    ((mainIter { sampleIterEnv with writeFault := some "No space left on device" }
        emptyWorld).1 = .continueLoop ∧
      ("An unexpected error occurred: " ++ "No space left on device") ∈
        (mainIter { sampleIterEnv with writeFault := some "No space left on device" }
          emptyWorld).2.console) :=
  ⟨(loop_faults_never_terminate
      { sampleIterEnv with writeFault := some "No space left on device" } emptyWorld).1,
    (loop_faults_never_terminate
      { sampleIterEnv with writeFault := some "No space left on device" } emptyWorld).2
      "http://example.com/shot.png" "./cache/image_20260101_000000.jpg" ⟨"RGB", 7⟩
      "### Overview markdown" "No space left on device"
      rfl (by decide) (by decide) (by decide) rfl rfl⟩

/-- C6: an input line whose stripped, lower-cased form is a quit keyword makes
the loop exit without invoking the Fetcher: the iteration's result is the same
for any two environments that agree on the line read (so the HTTP client,
decoder and inference oracles are never consulted), the outcome is loop
termination, and the scratch and output directories are untouched. -/
theorem quit_keyword_skips_fetcher (env₁ env₂ : IterEnv) (w : World) (raw : String)
    (h₁ : env₁.readLine = .ok raw) (h₂ : env₂.readLine = .ok raw)
    (hq : QUIT_WORDS.contains (pyLower (pyStrip raw)) = true) :
    mainIter env₁ w = mainIter env₂ w ∧
    (mainIter env₁ w).1 = .exitLoop ∧
    (mainIter env₁ w).2.cache = w.cache ∧
    (mainIter env₁ w).2.outputs = w.outputs := by
  have hq2 : pyLower (pyStrip raw) ∈ QUIT_WORDS := by simpa using hq
  unfold mainIter
  rw [h₁, h₂]
  simp [hq2, World.say]

/-- The sample environment with the operator typing ` EXIT ` (whitespace and
upper case exercise the strip and lower-case steps). -/
def quitEnvA : IterEnv := { sampleIterEnv with readLine := .ok " EXIT " }

/-- Like `quitEnvA` but with fetch and inference oracles that would fail if
ever consulted. -/
def quitEnvB : IterEnv :=
  { sampleIterEnv with
    readLine := .ok " EXIT "
    fetch := { sampleFetch with httpGet := fun _ => .err "unreachable" }
    infer := .error "never reached" }

/-- The sample environment with the operator typing `q`. -/
def quitEnvQ : IterEnv := { sampleIterEnv with readLine := .ok "q" }

/-- Evaluation of `quit_keyword_skips_fetcher` on inputs ` EXIT ` and `q`, with
two environments whose fetch and inference oracles differ (one would fail,
one would succeed): the quit path never touches them. -/
theorem quit_keyword_skips_fetcher_witness :
    (QUIT_WORDS.contains (pyLower (pyStrip " EXIT ")) = true ∧
      mainIter quitEnvA emptyWorld = mainIter quitEnvB emptyWorld ∧
      (mainIter quitEnvA emptyWorld).1 = .exitLoop ∧
      (mainIter quitEnvA emptyWorld).2.cache = emptyWorld.cache ∧
      (mainIter quitEnvA emptyWorld).2.outputs = emptyWorld.outputs) ∧
    (QUIT_WORDS.contains (pyLower (pyStrip "q")) = true ∧
      (mainIter quitEnvQ emptyWorld).1 = .exitLoop) :=
  ⟨⟨by decide,
    quit_keyword_skips_fetcher quitEnvA quitEnvB emptyWorld " EXIT " rfl rfl (by decide)⟩,
   ⟨by decide,
    (quit_keyword_skips_fetcher quitEnvQ quitEnvQ emptyWorld "q" rfl rfl
      (by decide)).2.1⟩⟩
